import Mathlib

/-!
Verification development for the quancri tool-agent core: a shallow
embedding of the tool registry (quancri/tools/tool_capabilities.py),
the metadata extractor (quancri/tools/tool.py, quancri/models/tool_model.py)
and the step-plan executor (quancri/agents/agents.py), with theorems about
capability resolution, parameter binding, previous-result threading and
error containment.
-/

set_option maxHeartbeats 1000000

namespace Quancri

/-- Python runtime values as they flow through step parameter mappings and
step results. Only the shapes the agent core inspects are distinguished. -/
inductive Value where
  | pyNone
  | bool (b : Bool)
  | int (i : Int)
  | str (s : String)
deriving DecidableEq, Repr

/-- Name of the Python type of a value, as used in TypeError messages. -/
def pyTypeName : Value → String
  | Value.pyNone => "NoneType"
  | Value.bool _ => "bool"
  | Value.int _ => "int"
  | Value.str _ => "str"

/-- Embedding of CPython isinstance(x, int): bool is a subclass of int, so
True and False count as the integers 1 and 0; every other non-int value is
rejected. Returns the integer value when the isinstance test succeeds. -/
def pyIntOf : Value → Option Int
  | Value.int i => some i
  | Value.bool b => some (if b then 1 else 0)
  | _ => none

/-- A Python dict with string keys, modelled as an insertion-ordered
association list (Python dicts preserve insertion order). -/
abbrev AList (α : Type) : Type := List (String × α)

/-- Dict lookup: d.get(key) / key in d. -/
def alookup {α : Type} : AList α → String → Option α
  | [], _ => none
  | (k, v) :: rest, key => if k = key then some v else alookup rest key

/-- Dict membership: key in d. -/
def acontains {α : Type} (m : AList α) (key : String) : Bool :=
  (alookup m key).isSome

/-- Dict key removal: d.pop(key) discards the binding of key. Removing every
occurrence coincides with removing the unique one on genuine dicts. -/
def aerase {α : Type} : AList α → String → AList α
  | [], _ => []
  | (k, v) :: rest, key =>
      if k = key then aerase rest key else (k, v) :: aerase rest key

/-- Dict assignment d[key] = val: overwrite in place when the key exists
(keeping its position), append otherwise. -/
def aset {α : Type} : AList α → String → α → AList α
  | [], key, val => [(key, val)]
  | (k, v) :: rest, key, val =>
      if k = key then (k, val) :: rest else (k, v) :: aset rest key val

/-- A step parameter mapping (the tool_params dict of a planner step). -/
abbrev ParamMap := AList Value

theorem alookup_erase_self {α : Type} (m : AList α) (key : String) :
    alookup (aerase m key) key = none := by
  induction m with
  | nil => rfl
  | cons hd tl ih =>
      by_cases h : hd.1 = key
      · simpa [aerase, h] using ih
      · simpa [aerase, alookup, h] using ih

theorem alookup_erase_ne {α : Type} (m : AList α) (key key' : String)
    (h : key' ≠ key) : alookup (aerase m key) key' = alookup m key' := by
  induction m with
  | nil => rfl
  | cons hd tl ih =>
      by_cases hk : hd.1 = key
      · simp [aerase, alookup, hk, ih, Ne.symm h]
      · by_cases hk' : hd.1 = key'
        · simp [aerase, alookup, hk, hk', h]
        · simp [aerase, alookup, hk, hk', ih]

theorem alookup_set_self {α : Type} (m : AList α) (key : String) (val : α) :
    alookup (aset m key val) key = some val := by
  induction m with
  | nil => simp [aset, alookup]
  | cons hd tl ih =>
      by_cases hk : hd.1 = key
      · simp [aset, alookup, hk]
      · simp [aset, alookup, hk, ih]

theorem alookup_set_ne {α : Type} (m : AList α) (key key' : String) (val : α)
    (h : key' ≠ key) : alookup (aset m key val) key' = alookup m key' := by
  induction m with
  | nil => simp [aset, alookup, Ne.symm h]
  | cons hd tl ih =>
      by_cases hk : hd.1 = key
      · simp [aset, alookup, hk, Ne.symm h]
      · by_cases hk' : hd.1 = key'
        · simp [aset, alookup, hk, hk', h]
        · simp [aset, alookup, hk, hk', ih]

/-- Snapshot of the tool metadata recorded into a context entry by
Agent.process_question (agents.py lines 101 to 112). -/
structure ToolMetaSnapshot where
  name : String
  description : String
  category : String
  function_called : Value
  function_parameters : ParamMap
deriving DecidableEq, Repr

/-- One entry of the execution context list built by Agent.process_question
(agents.py lines 114 to 120): the step dict fields after execution plus the
raw result value. -/
structure CtxEntry where
  descr : String
  requires_tool : Bool
  tool_name : Option String
  tool_metadata : Option ToolMetaSnapshot
  result : Value
deriving DecidableEq, Repr

/-- Python list indexing previous_results[i] for an index already checked to
satisfy 0 <= i < len. -/
def ctxGet (ctx : List CtxEntry) (i : Int) : CtxEntry :=
  ctx.getD i.toNat
    { descr := "", requires_tool := false, tool_name := none,
      tool_metadata := none, result := Value.pyNone }

/-- A planner step dict as consumed by Agent.execute_step: keys step,
requires_tool, tool_name, tool_params. -/
structure Step where
  descr : String
  requires_tool : Bool
  tool_name : Option String
  tool_params : Option ParamMap
deriving DecidableEq, Repr

/-- A callable tool method: its formal parameter names (the keys of
inspect.signature(f).parameters, the bound receiver excluded) and its
behaviour when invoked with keyword arguments, which may raise (error
carries str(e)). -/
structure ToolFn where
  params : List String
  run : ParamMap → Except String Value

/-- A registered tool instance as seen by the Agent executor: the metadata
fields read by process_question and the callable methods reachable through
getattr. -/
structure ToolImpl where
  meta_name : String
  meta_description : String
  meta_category : String
  fns : AList ToolFn

/-- Truthiness of step.get(tool_name): None and the empty string are falsy. -/
def pyNameFalsy : Option String → Bool
  | none => true
  | some s => s.isEmpty

/-- Embedding of agents.py lines 48 to 52: when the copied parameter mapping
holds a use_previous_results key, pop it; when its value passes
isinstance(v, int) with 0 <= v < len(previous_results), bind previous_result
to previous_results[v].result; otherwise the popped value is silently
discarded. The function is total: no path raises. -/
def inject_previous_results (tool_params : ParamMap)
    (previous_results : List CtxEntry) : ParamMap :=
  match alookup tool_params "use_previous_results" with
  | some step_index =>
      let tp := aerase tool_params "use_previous_results"
      match pyIntOf step_index with
      | some i =>
          if 0 ≤ i ∧ i < (previous_results.length : Int) then
            aset tp "previous_result" (ctxGet previous_results i).result
          else tp
      | none => tp
  | none => tool_params

/-- Embedding of agents.py lines 63 to 66: when the resolved function does
not declare a previous_result formal parameter, drop that key from the call
arguments before invoking. -/
def strip_previous_result (fn : ToolFn) (tool_params : ParamMap) : ParamMap :=
  if fn.params.contains "previous_result" then tool_params
  else aerase tool_params "previous_result"

/-- The control-flow outcome of Agent.execute_step before the actual call:
which early return was taken, or which function is invoked with which
delivered arguments. -/
inductive ExecOutcome where
  | noTool
  | toolNotAvailable
  | fnNotAvailable (function_name : String)
  | badFnName (msg : String)
  | invoke (function_name : String) (fn : ToolFn) (args : ParamMap)

/-- Embedding of agents.py lines 56 to 66: getattr(tool, function_name,
None), the function-not-available early return, and the previous_result
stripping at the call site. -/
def resolveFunction (tool : ToolImpl) (function_name : String)
    (tool_params : ParamMap) : ExecOutcome :=
  match alookup tool.fns function_name with
  | none => ExecOutcome.fnNotAvailable function_name
  | some fn => ExecOutcome.invoke function_name fn (strip_previous_result fn tool_params)

/-- Embedding of agents.py line 55: tool_params.pop with default execute
(dict.pop is a lookup followed by a removal), then dispatch on the popped
value: a missing key resolves the execute operation, a string names the
operation, and any other value makes getattr raise TypeError, which the
surrounding try catches. -/
def dispatchWithParams (tool : ToolImpl) (tool_params : ParamMap) : ExecOutcome :=
  match alookup tool_params "function_name" with
  | none => resolveFunction tool "execute" (aerase tool_params "function_name")
  | some (Value.str s) => resolveFunction tool s (aerase tool_params "function_name")
  | some v =>
      ExecOutcome.badFnName ("attribute name must be string, not " ++ pyTypeName v)

/-- Embedding of Agent.execute_step (agents.py lines 30 to 75) up to the
invocation itself: the requires_tool and tool_name early returns, the tool
lookup, the copy of the parameter mapping (line 46; the copy is why the
original step mapping is never written), previous-result injection, the
function_name pop with default execute (a non-string function_name value
makes getattr raise TypeError, caught by the surrounding try), function
resolution and argument stripping. -/
def executeStepCore (tools : AList ToolImpl) (step : Step)
    (previous_results : List CtxEntry) : ExecOutcome :=
  if step.requires_tool = false then ExecOutcome.noTool
  else if pyNameFalsy step.tool_name then ExecOutcome.noTool
  else
    match alookup tools (step.tool_name.getD "") with
    | none => ExecOutcome.toolNotAvailable
    | some tool =>
        dispatchWithParams tool
          (inject_previous_results (step.tool_params.getD []) previous_results)

/-- Embedding of Agent.execute_step (agents.py lines 30 to 84): the outcome
of the dispatch protocol interpreted into the returned result value (None on
every failure path) and the step dict after its in-place description
annotations. Any error raised inside the try block is caught at line 81 and
turned into an Error annotation carrying str(e). -/
def execute_step (tools : AList ToolImpl) (step : Step)
    (previous_results : List CtxEntry) : Value × Step :=
  match executeStepCore tools step previous_results with
  | ExecOutcome.noTool => (Value.pyNone, step)
  | ExecOutcome.toolNotAvailable =>
      (Value.pyNone, { step with descr := "[Tool not available] " ++ step.descr })
  | ExecOutcome.fnNotAvailable function_name =>
      (Value.pyNone,
       { step with descr := "[Function not available] " ++ function_name ++ " in " ++ step.descr })
  | ExecOutcome.badFnName msg =>
      (Value.pyNone, { step with descr := "[Error] " ++ step.descr ++ ": " ++ msg })
  | ExecOutcome.invoke _ fn args =>
      match fn.run args with
      | Except.ok r => (r, step)
      | Except.error msg =>
          (Value.pyNone, { step with descr := "[Error] " ++ step.descr ++ ": " ++ msg })

/-- Events recording the externally observable actions of one
Agent.process_question run: a step dispatched through execute_step, a
result entry appended to the context, and the final call to the external
synthesizer (generate_response). -/
inductive AgentEvent where
  | stepExecuted
  | resultAppended
  | synthesizerCalled
deriving DecidableEq, Repr

/-- Embedding of agents.py lines 101 to 120: the context entry appended
after a step ran, holding the step dict fields (the description as possibly
annotated in place by execute_step), a snapshot of the metadata of the tool
named by the step when that tool is registered, and the raw result. -/
def mkCtxEntry (tools : AList ToolImpl) (stepPost : Step) (result : Value) :
    CtxEntry :=
  let md : Option ToolMetaSnapshot :=
    match stepPost.tool_name with
    | some nm =>
        if nm.isEmpty then none
        else
          match alookup tools nm with
          | some tool =>
              some { name := tool.meta_name
                     description := tool.meta_description
                     category := tool.meta_category
                     function_called :=
                       (alookup (stepPost.tool_params.getD []) "function_name").getD
                         (Value.str "execute")
                     function_parameters := stepPost.tool_params.getD [] }
          | none => none
    | none => none
  { descr := stepPost.descr
    requires_tool := stepPost.requires_tool
    tool_name := stepPost.tool_name
    tool_metadata := md
    result := result }

/-- Embedding of the step loop of Agent.process_question (agents.py lines
98 to 120): each step is executed against the context built so far and its
entry is appended; failures never stop the loop. Returns the full context
and the trace of observable actions. -/
def runSteps (tools : AList ToolImpl) :
    List Step → List CtxEntry → List CtxEntry × List AgentEvent
  | [], ctx => (ctx, [])
  | s :: rest, ctx =>
      let out := execute_step tools s ctx
      let entry := mkCtxEntry tools out.2 out.1
      let next := runSteps tools rest (ctx ++ [entry])
      (next.1, AgentEvent.stepExecuted :: AgentEvent.resultAppended :: next.2)

/-- Embedding of Agent.analyze_question (agents.py lines 146 to 280): the
planner response is parsed with json.loads; on JSONDecodeError the except
branch prints and falls through, so the method returns None. The parse
itself is the external planner contract, passed in as a function. -/
def analyze_question (parsePlan : String → Option (List Step))
    (llmResponse : String) : Option (List Step) :=
  parsePlan llmResponse

/-- Embedding of Agent.process_question (agents.py lines 86 to 124). When
analyze_question returns None, the for loop over the steps raises TypeError
(NoneType object is not iterable in CPython wording) before any step runs:
the run fails with an error, an empty event trace and no synthesizer
(generate_response) call. Otherwise every step executes in order and the
synthesizer output over the full context is returned. -/
def process_question (tools : AList ToolImpl)
    (parsePlan : String → Option (List Step))
    (synthesize : List CtxEntry → String) (llmResponse : String) :
    Except String String × List AgentEvent :=
  match analyze_question parsePlan llmResponse with
  | none => (Except.error "TypeError: NoneType object is not iterable", [])
  | some steps =>
      let run := runSteps tools steps []
      (Except.ok (synthesize run.1), run.2 ++ [AgentEvent.synthesizerCalled])

/-- Tool category enum (models/tool_model.py). -/
inductive ToolCategory where
  | finance
  | weather
  | general
  | news
deriving DecidableEq, Repr

/-- The value string of a ToolCategory member. -/
def ToolCategory.value : ToolCategory → String
  | ToolCategory.finance => "finance"
  | ToolCategory.weather => "weather"
  | ToolCategory.general => "general"
  | ToolCategory.news => "news"

/-- ToolParameter dataclass (models/tool_model.py). -/
structure ToolParameter where
  name : String
  type : String
  description : String
  required : Bool := true
deriving DecidableEq, Repr

/-- ToolFunction dataclass (models/tool_model.py); Tool.metadata builds the
per-function entries with exactly these fields. -/
structure ToolFunction where
  name : String
  description : String
  parameters : List ToolParameter
  return_type : String
deriving DecidableEq, Repr

/-- ToolMetadata dataclass (models/tool_model.py): fields name, description,
category and functions. It declares no parameters field. -/
structure ToolMetadata where
  name : String
  description : String
  category : ToolCategory
  functions : List ToolFunction
deriving DecidableEq, Repr

/-- One formal parameter of a Python method as inspect.signature reports it:
its name, the string rendering of its annotation (the output of
Tool._get_type_str) and whether a default value is declared. -/
structure PyParam where
  name : String
  typeStr : String
  hasDefault : Bool
deriving DecidableEq, Repr

/-- One public method of a tool class as reflection sees it: name, cleaned
docstring (inspect.getdoc, None when absent), signature parameters in order
and the rendering of the return annotation. -/
structure PyFunction where
  name : String
  doc : Option String
  params : List PyParam
  returnTypeStr : String
deriving DecidableEq, Repr

/-- A tool instance as the registry sees it: the class name, the cleaned
class docstring, the optional category attribute, whether the instance is a
StockPriceTool (the isinstance test in _discover_capabilities), and the
public function members found by inspect.getmembers. -/
structure RegTool where
  className : String
  classDoc : Option String
  category : Option ToolCategory
  isStockPriceTool : Bool
  publicFunctions : List PyFunction
deriving DecidableEq, Repr

/-- Python line.split(":", 1)[1]: everything after the first colon. Total
here (empty when no colon); every call site guards on startsWith so a colon
is present. -/
def afterFirstColon (line : String) : String :=
  String.intercalate ":" ((line.splitOn ":").tail)

/-- The scanning loop of Tool._extract_param_description (tool.py lines 51
to 66): walk stripped docstring lines, arm on a line starting with Args:,
then return the text after the colon on the first line starting with the
parameter name, stopping at a blank line or a Returns: line. -/
def scanArgsLines (param_name : String) : List String → Bool → String
  | [], _ => ""
  | l :: rest, in_args =>
      let line := l.trim
      if line.startsWith "Args:" then scanArgsLines param_name rest true
      else if in_args then
        if line.startsWith (param_name ++ ":") || line.startsWith (param_name ++ " :") then
          (afterFirstColon line).trim
        else if line.isEmpty || line.startsWith "Returns:" then ""
        else scanArgsLines param_name rest in_args
      else scanArgsLines param_name rest in_args

/-- Embedding of Tool._extract_param_description (tool.py lines 46 to 67):
a falsy docstring or a missed scan yields the default Parameter name text. -/
def extract_param_description (docstring : Option String) (param_name : String) :
    String :=
  match docstring with
  | none => "Parameter " ++ param_name
  | some doc =>
      if doc.isEmpty then "Parameter " ++ param_name
      else
        let d := scanArgsLines param_name (doc.splitOn "\n") false
        if d.isEmpty then "Parameter " ++ param_name else d

/-- Embedding of Tool._get_function_metadata (tool.py lines 69 to 95):
parameters exclude self, required is the absence of a default, the
description is the first docstring line or a generated default. -/
def get_function_metadata (f : PyFunction) : ToolFunction :=
  { name := f.name
    description :=
      match f.doc with
      | some doc =>
          if doc.isEmpty then "Function " ++ f.name
          else ((doc.splitOn "\n").headD "").trim
      | none => "Function " ++ f.name
    parameters :=
      (f.params.filter (fun p => p.name ≠ "self")).map (fun p =>
        { name := p.name
          type := p.typeStr
          description := extract_param_description f.doc p.name
          required := p.hasDefault = false })
    return_type := f.returnTypeStr }

/-- Embedding of the Tool.metadata property (tool.py lines 97 to 123):
extract a ToolFunction per public function member; when there are none,
raise ValueError (Tool ... has no documented functions) before building any
metadata. The overall description is the first class docstring line or a
generated default; the category defaults to GENERAL. -/
def tool_metadata (t : RegTool) : Except String ToolMetadata :=
  let functions := t.publicFunctions.map get_function_metadata
  if functions.isEmpty then
    Except.error ("Tool " ++ t.className ++ " has no documented functions")
  else
    Except.ok
      { name := t.className
        description :=
          match t.classDoc with
          | some doc =>
              if doc.isEmpty then "Tool " ++ t.className
              else ((doc.splitOn "\n").headD "").trim
          | none => "Tool " ++ t.className
        category := t.category.getD ToolCategory.general
        functions := functions }

/-- ToolCapability dataclass (tool_capabilities.py lines 8 to 16). -/
structure ToolCapability where
  name : String
  description : String
  required_params : List String
  example_usage : String
  fallback_tools : Option (List String) := none
  fallback_strategy : Option String := none
deriving DecidableEq, Repr

/-- ToolRegistry state (tool_capabilities.py lines 22 to 24): the tools
dict and the capabilities dict, both keyed by tool name in insertion
order. -/
structure ToolRegistry where
  tools : AList RegTool
  capabilities : AList (List ToolCapability)
deriving DecidableEq, Repr

/-- The two hardcoded StockPriceTool capabilities
(tool_capabilities.py lines 42 to 59). -/
def stockPriceCapabilities : List ToolCapability :=
  [ { name := "get_current_price"
      description := "Get current stock price for a symbol"
      required_params := ["symbol"]
      example_usage := "Get current price for AAPL"
      fallback_tools := some ["WebSearchTool", "CachedPriceTool"]
      fallback_strategy := some "Try cached data or general market info" }
  , { name := "get_historical_prices"
      description := "Get historical stock prices for a date range"
      required_params := ["symbol", "start_date", "end_date"]
      example_usage := "Get AAPL prices from 2025-01-01 to 2025-01-07"
      fallback_tools := some ["WebSearchTool", "CachedPriceTool"]
      fallback_strategy := some "Use available data points and interpolate" } ]

/-- The attribute read metadata.parameters performed at
tool_capabilities.py line 62. ToolMetadata (models/tool_model.py lines 28
to 33) declares only name, description, category and functions, so this
access raises AttributeError in Python for every ToolMetadata value; the
embedding surfaces that as an error. -/
def metadataParameters (_metadata : ToolMetadata) :
    Except String (List ToolParameter) :=
  Except.error "AttributeError: ToolMetadata object has no attribute parameters"

/-- Embedding of ToolRegistry._discover_capabilities (tool_capabilities.py
lines 35 to 75): the StockPriceTool bespoke capabilities are collected
first, then the generic loop reads metadata.parameters, which raises
(see metadataParameters); the per-required-parameter get_by capabilities
after the read are the dead remainder of the loop body. -/
def discover_capabilities (tool : RegTool) (metadata : ToolMetadata) :
    Except String (List ToolCapability) :=
  let capabilities : List ToolCapability :=
    if tool.isStockPriceTool then stockPriceCapabilities else []
  match metadataParameters metadata with
  | Except.error e => Except.error e
  | Except.ok params =>
      Except.ok
        (capabilities ++
          (params.filter (fun p => p.required)).map (fun p =>
            { name := "get_by_" ++ p.name
              description := "Get data by " ++ p.name
              required_params := [p.name]
              example_usage := "Use " ++ p.name ++ " to fetch data"
              fallback_strategy := some "Use general information" }))

/-- Embedding of ToolRegistry.register_tool (tool_capabilities.py lines 26
to 33): read tool.metadata (which may raise), store the tool under its
metadata name, then discover and store its capabilities. The returned pair
is the registry state after the call together with the raised error, if
any: a raise leaves behind exactly the writes already performed. -/
def register_tool (reg : ToolRegistry) (tool : RegTool) :
    ToolRegistry × Option String :=
  match tool_metadata tool with
  | Except.error e => (reg, some e)
  | Except.ok metadata =>
      let reg1 : ToolRegistry := { reg with tools := aset reg.tools metadata.name tool }
      match discover_capabilities tool metadata with
      | Except.error e => (reg1, some e)
      | Except.ok capabilities =>
          ({ reg1 with capabilities := aset reg1.capabilities metadata.name capabilities },
           none)

/-- Truthiness of the required_params argument: None and the empty list are
falsy, so they skip the parameter check. -/
def pyListOptFalsy (o : Option (List String)) : Bool :=
  match o with
  | none => true
  | some l => l.isEmpty

/-- The full guard under which ToolRegistry.find_tool_for_capability
records a match (tool_capabilities.py lines 86 to 88): exact capability
name equality, the requested parameters all contained in the capability
required parameters (skipped when the request is falsy), and the tool
currently present in the tools dict. -/
def capFullMatch (tools : AList RegTool) (capability_name : String)
    (required_params : Option (List String)) (tool_name : String)
    (cap : ToolCapability) : Bool :=
  cap.name == capability_name
  && (pyListOptFalsy required_params
      || (required_params.getD []).all (fun p => cap.required_params.contains p))
  && acontains tools tool_name

/-- The fallback assignment at tool_capabilities.py lines 90 to 95: only a
truthy (non-None, non-empty) fallback_tools list overwrites the running
fallback, and it overwrites it with the first currently registered name or
None. -/
def fallbackUpdate (tools : AList RegTool) (cap : ToolCapability)
    (old : Option String) : Option String :=
  match cap.fallback_tools with
  | some fbs =>
      if fbs.isEmpty then old else fbs.find? (fun t => acontains tools t)
  | none => old

/-- One iteration of the outer loop of find_tool_for_capability over a
capabilities dict entry: the inner loop scans the entry capabilities and
breaks at the first full match, assigning best_match and conditionally
fallback. The break leaves the outer loop running, so later entries can
overwrite both. -/
def findFold (tools : AList RegTool) (capability_name : String)
    (required_params : Option (List String))
    (acc : Option String × Option String) (entry : String × List ToolCapability) :
    Option String × Option String :=
  match entry.2.find? (capFullMatch tools capability_name required_params entry.1) with
  | some cap => (some entry.1, fallbackUpdate tools cap acc.2)
  | none => acc

/-- The double loop of find_tool_for_capability as a fold over the
capabilities dict with a fixed tools dict. -/
def findAux (tools : AList RegTool) (caps : AList (List ToolCapability))
    (capability_name : String) (required_params : Option (List String)) :
    Option String × Option String :=
  caps.foldl (findFold tools capability_name required_params) (none, none)

/-- Embedding of ToolRegistry.find_tool_for_capability
(tool_capabilities.py lines 77 to 98). -/
def find_tool_for_capability (reg : ToolRegistry) (capability_name : String)
    (required_params : Option (List String)) : Option String × Option String :=
  findAux reg.tools reg.capabilities capability_name required_params

/-- Embedding of ToolRegistry.get_tool (tool_capabilities.py lines 100 to
102). -/
def get_tool (reg : ToolRegistry) (tool_name : String) : Option RegTool :=
  alookup reg.tools tool_name

/-- Capability match as the specification words it for
find_tool_for_capability: exact capability-name equality and, when
requiredParams is given, every requested parameter contained in the
capability required-parameter set. Written from the spec sentence, for
comparison against the code. -/
def specCapMatches (capability_name : String)
    (required_params : Option (List String)) (cap : ToolCapability) : Bool :=
  cap.name == capability_name
  && (match required_params with
      | none => true
      | some ps => ps.all (fun p => cap.required_params.contains p))

/-- The primary result as the specification words it: the first tool in
registration order having a matching capability. Written from the spec
sentence, for comparison against the code. -/
def specFirstMatchTool (reg : ToolRegistry) (capability_name : String)
    (required_params : Option (List String)) : Option String :=
  (reg.capabilities.find? (fun e =>
    (e.2.find? (specCapMatches capability_name required_params)).isSome)).map
    (fun e => e.1)

/-- Whether a capabilities-dict entry contains a capability passing the
full match guard (the condition under which the inner loop assigns and
breaks). -/
def entryMatched (tools : AList RegTool) (capability_name : String)
    (required_params : Option (List String)) (e : String × List ToolCapability) :
    Bool :=
  (e.2.find? (capFullMatch tools capability_name required_params e.1)).isSome

/-- What a single matched capability does to the running fallback: a truthy
fallback_tools list overrides it with the first registered name (or None),
anything else leaves it alone. -/
def capFallbackOverride (tools : AList RegTool) (cap : ToolCapability) :
    Option (Option String) :=
  match cap.fallback_tools with
  | some fbs =>
      if fbs.isEmpty then none else some (fbs.find? (fun t => acontains tools t))
  | none => none

/-- What a capabilities-dict entry does to the running fallback: the
override of its first fully matching capability, if any. -/
def entryOverride (tools : AList RegTool) (capability_name : String)
    (required_params : Option (List String)) (e : String × List ToolCapability) :
    Option (Option String) :=
  match e.2.find? (capFullMatch tools capability_name required_params e.1) with
  | some cap => capFallbackOverride tools cap
  | none => none

/-- The primary result the code actually computes: the LAST entry of the
capabilities dict containing a fully matching capability, because the break
at tool_capabilities.py line 96 only leaves the inner loop and later
entries overwrite best_match. -/
def lastMatchTool (tools : AList RegTool) (caps : AList (List ToolCapability))
    (capability_name : String) (required_params : Option (List String)) :
    Option String :=
  (caps.reverse.find? (entryMatched tools capability_name required_params)).map
    (fun e => e.1)

/-- The fallback result the code actually computes: the override of the
last matched capability having a truthy fallback_tools list, if any entry
has one. -/
def lastFallback (tools : AList RegTool) (caps : AList (List ToolCapability))
    (capability_name : String) (required_params : Option (List String)) :
    Option String :=
  (caps.reverse.findSome? (entryOverride tools capability_name required_params)).getD
    none

theorem fallbackUpdate_eq (tools : AList RegTool) (cap : ToolCapability)
    (old : Option String) :
    fallbackUpdate tools cap old = (capFallbackOverride tools cap).getD old := by
  cases hf : cap.fallback_tools with
  | none => simp [fallbackUpdate, capFallbackOverride, hf]
  | some fbs =>
      by_cases he : fbs.isEmpty
      · simp [fallbackUpdate, capFallbackOverride, hf, he]
      · simp [fallbackUpdate, capFallbackOverride, hf, he]

theorem findAux_eq (tools : AList RegTool) (capability_name : String)
    (required_params : Option (List String)) (caps : AList (List ToolCapability)) :
    findAux tools caps capability_name required_params =
      (lastMatchTool tools caps capability_name required_params,
       lastFallback tools caps capability_name required_params) := by
  induction caps using List.reverseRecOn with
  | nil => rfl
  | append_singleton l e ih =>
      have hstep : findAux tools (l ++ [e]) capability_name required_params =
          findFold tools capability_name required_params
            (findAux tools l capability_name required_params) e := by
        simp [findAux, List.foldl_append]
      rw [hstep, ih]
      unfold findFold lastMatchTool lastFallback
      rw [List.reverse_append]
      cases hm : e.2.find? (capFullMatch tools capability_name required_params e.1) with
      | none =>
          simp [entryMatched, entryOverride, hm, List.find?, List.findSome?,
                lastMatchTool, lastFallback]
      | some cap =>
          cases ho : capFallbackOverride tools cap with
          | none =>
              simp [entryMatched, entryOverride, hm, ho, fallbackUpdate_eq,
                    List.find?, List.findSome?, lastFallback]
          | some x =>
              simp [entryMatched, entryOverride, hm, ho, fallbackUpdate_eq,
                    List.find?, List.findSome?]

/-! Concrete fixtures used as inputs by witnesses and counterexamples. -/

/-- A public function member with no docstring, used by fixture tools. -/
def dummyPublicFn : PyFunction :=
  { name := "execute"
    doc := none
    params :=
      [ { name := "self", typeStr := "Any", hasDefault := false }
      , { name := "symbol", typeStr := "str", hasDefault := false } ]
    returnTypeStr := "Any" }

/-- A minimal registered tool fixture. -/
def dummyRegTool : RegTool :=
  { className := "DummyTool"
    classDoc := none
    category := none
    isStockPriceTool := false
    publicFunctions := [dummyPublicFn] }

/-- A capability fixture shared by two tools in the counterexample
registry. -/
def capGetPrice : ToolCapability :=
  { name := "get_current_price"
    description := "Get current stock price for a symbol"
    required_params := ["symbol"]
    example_usage := "Get current price for AAPL" }

/-- A registry state in which two registered tools both advertise the same
capability name. -/
def twoToolRegistry : ToolRegistry :=
  { tools := [("ToolA", dummyRegTool), ("ToolB", dummyRegTool)]
    capabilities := [("ToolA", [capGetPrice]), ("ToolB", [capGetPrice])] }

/-- The empty registry state (a fresh ToolRegistry). -/
def emptyRegistry : ToolRegistry := { tools := [], capabilities := [] }

/-- A tool class with no public function members. -/
def noFnTool : RegTool :=
  { className := "EmptyTool"
    classDoc := none
    category := none
    isStockPriceTool := false
    publicFunctions := [] }

/-- A StockPriceTool instance as reflection sees it (docstrings elided;
parameter list as in stock_tools.py lines 29 to 36: symbol is the only
parameter without a default). -/
def stockPriceToolModel : RegTool :=
  { className := "StockPriceTool"
    classDoc := none
    category := some ToolCategory.finance
    isStockPriceTool := true
    publicFunctions :=
      [ { name := "execute"
          doc := none
          params :=
            [ { name := "self", typeStr := "Any", hasDefault := false }
            , { name := "symbol", typeStr := "str", hasDefault := false }
            , { name := "calculate_average", typeStr := "bool", hasDefault := true }
            , { name := "previous_result", typeStr := "Optional[Dict[str, Any]]",
                hasDefault := true } ]
          returnTypeStr := "Union[float, Dict[str, float], Dict[str, Any]]" } ] }

/-- The ToolMetadata that Tool.metadata derives for stockPriceToolModel. -/
def stockPriceToolMetadata : ToolMetadata :=
  { name := "StockPriceTool"
    description := "Tool StockPriceTool"
    category := ToolCategory.finance
    functions :=
      [ { name := "execute"
          description := "Function execute"
          parameters :=
            [ { name := "symbol", type := "str",
                description := "Parameter symbol", required := true }
            , { name := "calculate_average", type := "bool",
                description := "Parameter calculate_average", required := false }
            , { name := "previous_result", type := "Optional[Dict[str, Any]]",
                description := "Parameter previous_result", required := false } ]
          return_type := "Union[float, Dict[str, float], Dict[str, Any]]" } ] }

/-! Claim theorems. -/

/-- C1 counterexample: in a registry where ToolA (registered first) and
ToolB both advertise get_current_price, the claim predicts the primary
result ToolA (first match in registration order), but
find_tool_for_capability returns ToolB: the break at line 96 only exits the
inner loop, so the last matching tool wins. -/
theorem c1_counterexample :
    specFirstMatchTool twoToolRegistry "get_current_price" (some ["symbol"]) =
      some "ToolA"
    ∧ (find_tool_for_capability twoToolRegistry "get_current_price"
        (some ["symbol"])).1 = some "ToolB" := by
  constructor
  · rfl
  · rfl

/-- C1 (amended): for every registry state,
find_tool_for_capability(capabilityName, requiredParams) returns as primary
the LAST tool in registration order having a capability whose name equals
capabilityName exactly and (when requiredParams is given and non-empty)
whose required-parameter set contains every requested parameter, the tool
itself being registered; the fallback is determined by the last such
matching capability whose fallback list is truthy: the first name in that
list that is currently registered, else absent; and for an unknown
capability the call returns absence for both, never an error. -/
theorem c1_find_tool_last_match_wins :
    (∀ (reg : ToolRegistry) (capability_name : String)
        (required_params : Option (List String)),
      find_tool_for_capability reg capability_name required_params =
        (lastMatchTool reg.tools reg.capabilities capability_name required_params,
         lastFallback reg.tools reg.capabilities capability_name required_params))
    ∧ (∀ (reg : ToolRegistry) (capability_name : String)
        (required_params : Option (List String)),
      (∀ e ∈ reg.capabilities, ∀ cap ∈ e.2, cap.name ≠ capability_name) →
      find_tool_for_capability reg capability_name required_params = (none, none)) := by
  constructor
  · intro reg cn rp
    exact findAux_eq reg.tools cn rp reg.capabilities
  · intro reg cn rp h
    have hnone : ∀ e ∈ reg.capabilities,
        e.2.find? (capFullMatch reg.tools cn rp e.1) = none := by
      intro e he
      rw [List.find?_eq_none]
      intro cap hcap
      have hname : cap.name ≠ cn := h e he cap hcap
      simp [capFullMatch, hname]
    have hfalse : ∀ e ∈ reg.capabilities,
        entryMatched reg.tools cn rp e = false := by
      intro e he
      unfold entryMatched
      rw [hnone e he]
      rfl
    have hover : ∀ e ∈ reg.capabilities,
        entryOverride reg.tools cn rp e = none := by
      intro e he
      unfold entryOverride
      rw [hnone e he]
    unfold find_tool_for_capability
    rw [findAux_eq reg.tools cn rp reg.capabilities]
    unfold lastMatchTool lastFallback
    rw [List.find?_eq_none.mpr, List.findSome?_eq_none_iff.mpr]
    · rfl
    · intro e he
      exact hover e (List.mem_reverse.mp he)
    · intro e he
      simp [hfalse e (List.mem_reverse.mp he)]

/-- C1 amended witness: on the empty registry, an unknown capability
resolves to absence for both results. -/
theorem c1_witness :
    find_tool_for_capability emptyRegistry "get_current_price" none =
      (none, none) :=
  c1_find_tool_last_match_wins.2 emptyRegistry "get_current_price" none
    (by simp [emptyRegistry])

/-- C2: for every tool whose metadata extraction succeeds,
ToolRegistry.register_tool stores the tool in the tools dict and then
crashes with AttributeError inside _discover_capabilities, because the
generic capability loop at tool_capabilities.py line 62 reads
metadata.parameters and ToolMetadata declares no such field: no get_by
capability is ever synthesized, the capabilities dict is never extended,
and no registration ever completes. -/
theorem c2_register_tool_attribute_error :
    ∀ (reg : ToolRegistry) (t : RegTool) (md : ToolMetadata),
      tool_metadata t = Except.ok md →
      register_tool reg t =
        ({ tools := aset reg.tools md.name t, capabilities := reg.capabilities },
         some "AttributeError: ToolMetadata object has no attribute parameters") := by
  intro reg t md h
  simp [register_tool, h, discover_capabilities, metadataParameters]

/-- C2 witness: registering a StockPriceTool model on a fresh registry
leaves the tool in the tools dict, the capabilities dict empty, and raises
the AttributeError. -/
theorem c2_witness :
    tool_metadata stockPriceToolModel = Except.ok stockPriceToolMetadata
    ∧ register_tool emptyRegistry stockPriceToolModel =
        ({ tools := [("StockPriceTool", stockPriceToolModel)], capabilities := [] },
         some "AttributeError: ToolMetadata object has no attribute parameters") :=
  ⟨rfl,
   c2_register_tool_attribute_error emptyRegistry stockPriceToolModel
     stockPriceToolMetadata rfl⟩

/-- C6: a tool exposing no documented public operations fails registration
with a ValueError raised while reading tool.metadata, before any registry
write: the tools dict and the capabilities dict are exactly the pre-call
state. Conversely, whenever metadata extraction succeeds, the derived
function list is non-empty. -/
theorem c6_no_functions_registration_atomic :
    (∀ (reg : ToolRegistry) (t : RegTool),
      t.publicFunctions = [] →
      register_tool reg t =
        (reg, some ("Tool " ++ t.className ++ " has no documented functions")))
    ∧ (∀ (t : RegTool) (md : ToolMetadata),
      tool_metadata t = Except.ok md → md.functions ≠ []) := by
  constructor
  · intro reg t h
    simp [register_tool, tool_metadata, h]
  · intro t md h
    unfold tool_metadata at h
    cases hL : t.publicFunctions.map get_function_metadata with
    | nil =>
        rw [hL] at h
        simp at h
    | cons f fs =>
        rw [hL] at h
        simp only [List.isEmpty_cons, if_false, Bool.false_eq_true] at h
        obtain rfl := Except.ok.inj h
        simp

/-- C6 witness: registering a tool with no public functions on a fresh
registry raises the ValueError and leaves the registry unchanged; and the
successfully extracted StockPriceTool metadata has a non-empty function
list. -/
theorem c6_witness :
    register_tool emptyRegistry noFnTool =
      (emptyRegistry, some "Tool EmptyTool has no documented functions")
    ∧ stockPriceToolMetadata.functions ≠ [] :=
  ⟨c6_no_functions_registration_atomic.1 emptyRegistry noFnTool rfl,
   c6_no_functions_registration_atomic.2 stockPriceToolModel
     stockPriceToolMetadata rfl⟩

theorem resolveFunction_invoke_inv (tool : ToolImpl) (function_name : String)
    (tool_params : ParamMap) (nm : String) (fn : ToolFn) (args : ParamMap)
    (h : resolveFunction tool function_name tool_params =
      ExecOutcome.invoke nm fn args) :
    args = strip_previous_result fn tool_params := by
  unfold resolveFunction at h
  cases hf : alookup tool.fns function_name with
  | none =>
      rw [hf] at h
      cases h
  | some fn2 =>
      rw [hf] at h
      injection h with h1 h2 h3
      subst h2
      exact h3.symm

theorem dispatchWithParams_invoke_inv (tool : ToolImpl) (tool_params : ParamMap)
    (nm : String) (fn : ToolFn) (args : ParamMap)
    (h : dispatchWithParams tool tool_params = ExecOutcome.invoke nm fn args) :
    args = strip_previous_result fn (aerase tool_params "function_name") := by
  unfold dispatchWithParams at h
  split at h
  · exact resolveFunction_invoke_inv _ _ _ _ _ _ h
  · exact resolveFunction_invoke_inv _ _ _ _ _ _ h
  · cases h

theorem executeStepCore_invoke_inv (tools : AList ToolImpl) (step : Step)
    (ctx : List CtxEntry) (nm : String) (fn : ToolFn) (args : ParamMap)
    (h : executeStepCore tools step ctx = ExecOutcome.invoke nm fn args) :
    ∃ tp, args = strip_previous_result fn tp := by
  unfold executeStepCore at h
  split at h
  · cases h
  · split at h
    · cases h
    · split at h
      · cases h
      · exact ⟨_, dispatchWithParams_invoke_inv _ _ _ _ _ h⟩

theorem runSteps_length (tools : AList ToolImpl) (steps : List Step) :
    ∀ pre : List CtxEntry,
      (runSteps tools steps pre).1.length = pre.length + steps.length := by
  induction steps with
  | nil =>
      intro pre
      simp [runSteps]
  | cons s rest ih =>
      intro pre
      simp only [runSteps]
      rw [ih]
      simp
      omega

/-- C3: when the parameter mapping of a step holds a use_previous_results
key with value v, the executor (agents.py lines 48 to 52) removes the key
from its working copy before invocation; when v passes isinstance(v, int)
as the integer i with 0 <= i < len(context) it binds previous_result to
context[i].result; for every other v no previous_result binding is added
and nothing is raised (inject_previous_results is total). Following CPython
semantics, booleans pass the isinstance test as 0 and 1. -/
theorem c3_use_previous_results_binding :
    ∀ (m : ParamMap) (ctx : List CtxEntry) (v : Value),
      alookup m "use_previous_results" = some v →
      (alookup (inject_previous_results m ctx) "use_previous_results" = none)
      ∧ (∀ i : Int, pyIntOf v = some i → 0 ≤ i → i < (ctx.length : Int) →
          alookup (inject_previous_results m ctx) "previous_result" =
            some (ctxGet ctx i).result)
      ∧ ((∀ i : Int, pyIntOf v = some i → ¬(0 ≤ i ∧ i < (ctx.length : Int))) →
          alookup m "previous_result" = none →
          alookup (inject_previous_results m ctx) "previous_result" = none) := by
  intro m ctx v h
  rcases hpv : pyIntOf v with _ | i
  · have hinj : inject_previous_results m ctx = aerase m "use_previous_results" := by
      simp [inject_previous_results, h, hpv]
    refine ⟨?_, ?_, ?_⟩
    · rw [hinj, alookup_erase_self]
    · intro j hj h0 hlen
      cases hj
    · intro _ hm
      rw [hinj, alookup_erase_ne _ _ _ (by decide)]
      exact hm
  · by_cases hrange : 0 ≤ i ∧ i < (ctx.length : Int)
    · have hinj : inject_previous_results m ctx =
          aset (aerase m "use_previous_results") "previous_result"
            (ctxGet ctx i).result := by
        simp [inject_previous_results, h, hpv, hrange]
      refine ⟨?_, ?_, ?_⟩
      · rw [hinj, alookup_set_ne _ _ _ _ (by decide), alookup_erase_self]
      · intro j hj h0 hlen
        obtain rfl := Option.some.inj hj
        rw [hinj, alookup_set_self]
      · intro hno _
        exact absurd hrange (hno i rfl)
    · have hinj : inject_previous_results m ctx = aerase m "use_previous_results" := by
        simp [inject_previous_results, h, hpv, hrange]
      refine ⟨?_, ?_, ?_⟩
      · rw [hinj, alookup_erase_self]
      · intro j hj h0 hlen
        obtain rfl := Option.some.inj hj
        exact absurd ⟨h0, hlen⟩ hrange
      · intro _ hm
        rw [hinj, alookup_erase_ne _ _ _ (by decide)]
        exact hm

/-- A context entry fixture holding a fetched price. -/
def ctxE0 : CtxEntry :=
  { descr := "fetch price"
    requires_tool := true
    tool_name := some "StockPriceTool"
    tool_metadata := none
    result := Value.int 150 }

/-- A second context entry fixture. -/
def ctxE1 : CtxEntry :=
  { descr := "compute average"
    requires_tool := true
    tool_name := some "StockPriceTool"
    tool_metadata := none
    result := Value.int 152 }

/-- C3 witness: a valid integer index binds previous_result to the indexed
context result. -/
theorem c3_witness :
    alookup [("use_previous_results", Value.int 0), ("symbol", Value.str "AAPL")]
      "use_previous_results" = some (Value.int 0)
    ∧ alookup
        (inject_previous_results
          [("use_previous_results", Value.int 0), ("symbol", Value.str "AAPL")]
          [ctxE0])
        "previous_result" = some (ctxGet [ctxE0] 0).result :=
  ⟨rfl,
   (c3_use_previous_results_binding
      [("use_previous_results", Value.int 0), ("symbol", Value.str "AAPL")]
      [ctxE0] (Value.int 0) rfl).2.1 0 rfl (by decide) (by decide)⟩

/-- C10: a boolean use_previous_results value is treated as the integer
index 0 (False) or 1 (True), not discarded: isinstance(True, int) holds in
CPython because bool subclasses int. With value True and at least two
context entries the bound previous_result is context[1].result. -/
theorem c10_bool_previous_results_index :
    ∀ (m : ParamMap) (ctx : List CtxEntry),
      (alookup m "use_previous_results" = some (Value.bool true) →
        2 ≤ ctx.length →
        alookup (inject_previous_results m ctx) "previous_result" =
          some (ctxGet ctx 1).result)
      ∧ (alookup m "use_previous_results" = some (Value.bool false) →
        1 ≤ ctx.length →
        alookup (inject_previous_results m ctx) "previous_result" =
          some (ctxGet ctx 0).result) := by
  intro m ctx
  constructor
  · intro h hlen
    have h2 : (2 : Int) ≤ (ctx.length : Int) := by exact_mod_cast hlen
    have hrange : (0 : Int) ≤ 1 ∧ (1 : Int) < (ctx.length : Int) := by omega
    have hinj : inject_previous_results m ctx =
        aset (aerase m "use_previous_results") "previous_result"
          (ctxGet ctx 1).result := by
      simp [inject_previous_results, h, pyIntOf, hrange]
    rw [hinj, alookup_set_self]
  · intro h hlen
    have h1 : (1 : Int) ≤ (ctx.length : Int) := by exact_mod_cast hlen
    have hrange : (0 : Int) ≤ 0 ∧ (0 : Int) < (ctx.length : Int) := by omega
    have hinj : inject_previous_results m ctx =
        aset (aerase m "use_previous_results") "previous_result"
          (ctxGet ctx 0).result := by
      simp [inject_previous_results, h, pyIntOf, hrange]
    rw [hinj, alookup_set_self]

/-- C10 witness: use_previous_results set to True with two context entries
binds previous_result to the second entry result. -/
theorem c10_witness :
    alookup [("use_previous_results", Value.bool true)] "use_previous_results" =
      some (Value.bool true)
    ∧ alookup
        (inject_previous_results [("use_previous_results", Value.bool true)]
          [ctxE0, ctxE1])
        "previous_result" = some (ctxGet [ctxE0, ctxE1] 1).result :=
  ⟨rfl,
   (c10_bool_previous_results_index [("use_previous_results", Value.bool true)]
      [ctxE0, ctxE1]).1 rfl (by decide)⟩

/-- C5: whenever execute_step reaches an invocation whose resolved function
declares no previous_result formal parameter, the delivered arguments do
not contain the previous_result key (agents.py lines 63 to 66), however it
got into the step parameters. -/
theorem c5_previous_result_stripped :
    ∀ (tools : AList ToolImpl) (step : Step) (ctx : List CtxEntry)
      (nm : String) (fn : ToolFn) (args : ParamMap),
      executeStepCore tools step ctx = ExecOutcome.invoke nm fn args →
      fn.params.contains "previous_result" = false →
      alookup args "previous_result" = none := by
  intro tools step ctx nm fn args h hc
  obtain ⟨tp, rfl⟩ := executeStepCore_invoke_inv tools step ctx nm fn args h
  unfold strip_previous_result
  rw [hc]
  simp [alookup_erase_self]

/-- A tool function fixture that succeeds and does not declare
previous_result. -/
def priceFn : ToolFn :=
  { params := ["symbol"], run := fun _ => Except.ok (Value.int 150) }

/-- A registered tool fixture wrapping priceFn. -/
def priceToolImpl : ToolImpl :=
  { meta_name := "Stock Price Tool"
    meta_description := "Fetches stock market data"
    meta_category := "finance"
    fns := [("execute", priceFn)] }

/-- An executor tools dict holding the price tool. -/
def toolsFix : AList ToolImpl := [("StockPriceTool", priceToolImpl)]

/-- A step fixture whose parameters smuggle a previous_result key. -/
def stepWithPrev : Step :=
  { descr := "fetch price"
    requires_tool := true
    tool_name := some "StockPriceTool"
    tool_params :=
      some [("symbol", Value.str "AAPL"), ("previous_result", Value.int 1)] }

/-- C5 witness: the previous_result key present in the step parameters is
absent from the delivered arguments because priceFn does not declare it. -/
theorem c5_witness :
    executeStepCore toolsFix stepWithPrev [] =
      ExecOutcome.invoke "execute" priceFn [("symbol", Value.str "AAPL")]
    ∧ alookup [("symbol", Value.str "AAPL")] "previous_result" = none :=
  ⟨rfl,
   c5_previous_result_stripped toolsFix stepWithPrev [] "execute" priceFn
     [("symbol", Value.str "AAPL")] rfl rfl⟩

/-- C4: an error raised by the invoked operation is caught at agents.py
line 81: the step result is None, the step description is annotated in
place with an Error marker carrying str(e) after the original text, and
the surrounding plan loop still produces one context entry per step, so
execution proceeds to the next step. -/
theorem c4_invocation_error_contained :
    ∀ (tools : AList ToolImpl) (step : Step) (ctx : List CtxEntry)
      (nm : String) (fn : ToolFn) (args : ParamMap) (msg : String),
      executeStepCore tools step ctx = ExecOutcome.invoke nm fn args →
      fn.run args = Except.error msg →
      execute_step tools step ctx =
        (Value.pyNone, { step with descr := "[Error] " ++ step.descr ++ ": " ++ msg })
      ∧ ∀ (rest : List Step) (pre : List CtxEntry),
          ((runSteps tools (step :: rest) pre).1).length =
            pre.length + 1 + rest.length := by
  intro tools step ctx nm fn args msg h hrun
  constructor
  · simp [execute_step, h, hrun]
  · intro rest pre
    rw [runSteps_length, List.length_cons]
    omega

/-- A tool function fixture that always raises. -/
def failFn : ToolFn :=
  { params := ["symbol"], run := fun _ => Except.error "boom" }

/-- A registered tool fixture wrapping failFn. -/
def failToolImpl : ToolImpl :=
  { meta_name := "Failing Tool"
    meta_description := "Always raises"
    meta_category := "general"
    fns := [("execute", failFn)] }

/-- An executor tools dict holding the failing tool. -/
def toolsFail : AList ToolImpl := [("FailTool", failToolImpl)]

/-- A step fixture naming the failing tool. -/
def stepFail : Step :=
  { descr := "call it"
    requires_tool := true
    tool_name := some "FailTool"
    tool_params := some [("symbol", Value.str "AAPL")] }

/-- C4 witness: the raising invocation yields a None result and the Error
marker around the original description and the message. -/
theorem c4_witness :
    failFn.run [("symbol", Value.str "AAPL")] = Except.error "boom"
    ∧ execute_step toolsFail stepFail [] =
        (Value.pyNone,
         { stepFail with descr := "[Error] " ++ stepFail.descr ++ ": " ++ "boom" }) :=
  ⟨rfl,
   (c4_invocation_error_contained toolsFail stepFail [] "execute" failFn
      [("symbol", Value.str "AAPL")] "boom" rfl rfl).1⟩

/-- C8: a step requiring a tool whose name misses the tools dict gets a
None result and a Tool not available marker prefixed to its original
description (agents.py lines 39 to 42), the original text preserved after
it; the plan loop still produces one context entry per step and goes on. -/
theorem c8_tool_not_available_marker :
    ∀ (tools : AList ToolImpl) (step : Step) (ctx : List CtxEntry) (nm : String),
      step.requires_tool = true →
      step.tool_name = some nm →
      nm.isEmpty = false →
      alookup tools nm = none →
      execute_step tools step ctx =
        (Value.pyNone, { step with descr := "[Tool not available] " ++ step.descr })
      ∧ ∀ (rest : List Step) (pre : List CtxEntry),
          ((runSteps tools (step :: rest) pre).1).length =
            pre.length + 1 + rest.length := by
  intro tools step ctx nm h1 h2 h3 h4
  have hcore : executeStepCore tools step ctx = ExecOutcome.toolNotAvailable := by
    unfold executeStepCore
    rw [h1, h2]
    simp [pyNameFalsy, h3, h4]
  constructor
  · simp [execute_step, hcore]
  · intro rest pre
    rw [runSteps_length, List.length_cons]
    omega

/-- A step fixture naming an unregistered tool. -/
def stepNoTool : Step :=
  { descr := "get weather"
    requires_tool := true
    tool_name := some "WeatherTool"
    tool_params := none }

/-- C8 witness: with an empty tools dict the step gets the marker and a
None result. -/
theorem c8_witness :
    alookup ([] : AList ToolImpl) "WeatherTool" = none
    ∧ execute_step [] stepNoTool [] =
        (Value.pyNone,
         { stepNoTool with descr := "[Tool not available] " ++ stepNoTool.descr }) :=
  ⟨rfl, (c8_tool_not_available_marker [] stepNoTool [] "WeatherTool" rfl rfl rfl rfl).1⟩

/-- C9: execute_step never aliases or mutates the callers parameter
mapping: it works on a copy (agents.py line 46), so after the call the
step dict holds exactly the tool_params it held before, including the
use_previous_results, function_name and previous_result keys the executor
pops from its working copy; requires_tool and tool_name are also untouched
(only the description is annotated). -/
theorem c9_step_params_not_mutated :
    ∀ (tools : AList ToolImpl) (step : Step) (ctx : List CtxEntry),
      ((execute_step tools step ctx).2).tool_params = step.tool_params
      ∧ ((execute_step tools step ctx).2).requires_tool = step.requires_tool
      ∧ ((execute_step tools step ctx).2).tool_name = step.tool_name := by
  intro tools step ctx
  cases hcore : executeStepCore tools step ctx with
  | noTool => simp [execute_step, hcore]
  | toolNotAvailable => simp [execute_step, hcore]
  | fnNotAvailable f => simp [execute_step, hcore]
  | badFnName m => simp [execute_step, hcore]
  | invoke f fn args =>
      cases hrun : fn.run args with
      | ok r => simp [execute_step, hcore, hrun]
      | error m => simp [execute_step, hcore, hrun]

/-- C7: when the planner response cannot be parsed (analyze_question
returns None after catching JSONDecodeError), process_question raises
TypeError at the for loop before anything runs: the question fails with an
error, the event trace is empty (no step executed, no context entry
appended) and the synthesizer is never called. -/
theorem c7_unparseable_plan_fatal :
    ∀ (tools : AList ToolImpl) (parsePlan : String → Option (List Step))
      (synthesize : List CtxEntry → String) (llmResponse : String),
      parsePlan llmResponse = none →
      process_question tools parsePlan synthesize llmResponse =
        (Except.error "TypeError: NoneType object is not iterable", []) := by
  intro tools parsePlan synthesize llmResponse h
  unfold process_question analyze_question
  rw [h]

/-- C7 witness: a parse that rejects the response makes the whole question
fail with the TypeError and an empty trace. -/
theorem c7_witness :
    process_question [] (fun _ => none) (fun _ => "answer") "not json" =
      (Except.error "TypeError: NoneType object is not iterable", []) :=
  c7_unparseable_plan_fatal [] (fun _ => none) (fun _ => "answer") "not json" rfl

end Quancri
